import Mathlib

/-!
# Verification of the `EnvironmentalVoting` confidential tally contract

A shallow embedding of
`examples/environmental-voting/contracts/EnvironmentalVoting.sol`.

Modelling conventions:

* Addresses, timestamps and `uintN` machine words are `Nat`; every place the
  Solidity 0.8 checked arithmetic could revert (the `uint32` increments of
  `currentProposalId` and `totalVoters`) is modelled by an explicit bound
  check against `2^32`, while the FHE handled `euint32` addition wraps
  silently modulo `2^32` exactly as the coprocessor arithmetic does.
* An FHE ciphertext (`euint8` / `euint32`) is a pair of the on-chain storage
  handle (the public `bytes32` slot content, modelled as a freshness counter)
  and the plaintext it decrypts to.  Every FHE library call that produces a
  ciphertext consumes a fresh handle from the state's `nextHandle` counter;
  `FHE.allowThis` / `FHE.allow` are ACL grants with no effect on the state we
  model and are omitted.
* `FHE.requestDecryption` is an external oracle call; we record it in the
  ghost fields `requests` / `nextRequestId` as the pair
  `(oracle-assigned request id, proposal id current at issue time)`.
  The contract itself stores nothing at request time, which is exactly what
  several claims are about; the ghost log only records what the oracle saw.
* `FHE.checkSignatures` is an external verification; its verdict enters
  `processResults` as the boolean `sigOk`.
* Each `require` becomes an `if`-guard returning `Except.error` with the
  source's revert string, in source order (modifiers run left to right,
  before the body).
* Every state-mutating entry point becomes a constructor of `Op`; `runOp`
  runs one transaction, `execOp` is the post-state of a transaction (a
  reverted transaction leaves the state unchanged).  `Reachable` is the set
  of states reachable from a fresh deployment.
-/

namespace EnvironmentalVoting

/-- `2^32`, the modulus of `uint32` / `euint32` arithmetic. -/
def U32 : Nat := 4294967296

/-- An FHE ciphertext: the publicly visible storage handle together with the
(ghost) plaintext it encrypts. -/
structure Ct where
  handle : Nat
  val : Nat
deriving DecidableEq, Repr

/-- The all-zero handle a Solidity storage slot holds before any ciphertext
is written to it. -/
def defaultCt : Ct := ⟨0, 0⟩

/-- `FHE.asEuint8`: trivially encrypt a `uint8`, consuming fresh handle `h`. -/
def fheAsEuint8 (h v : Nat) : Ct := ⟨h, v % 256⟩

/-- `FHE.asEuint32`: trivially encrypt a `uint32`, consuming fresh handle `h`. -/
def fheAsEuint32 (h v : Nat) : Ct := ⟨h, v % U32⟩

/-- `FHE.add` on `euint32`: homomorphic addition, wrapping modulo `2^32`,
producing a ciphertext under fresh handle `h`. -/
def fheAdd32 (h : Nat) (a b : Ct) : Ct := ⟨h, (a.val + b.val) % U32⟩

/-- The `Vote` struct. -/
structure Vote where
  encryptedVote : Ct
  hasVoted : Bool
  timestamp : Nat
deriving DecidableEq, Repr

/-- Default value of a `Vote` mapping entry. -/
def defaultVote : Vote := ⟨defaultCt, false, 0⟩

/-- The `Proposal` struct. -/
structure Proposal where
  title : String
  description : String
  startTime : Nat
  endTime : Nat
  active : Bool
  resultsRevealed : Bool
  yesVotes : Ct
  noVotes : Ct
  totalVoters : Nat
  voters : List Nat
deriving DecidableEq, Repr

/-- Default value of the `proposals` mapping. -/
def defaultProposal : Proposal :=
  ⟨"", "", 0, 0, false, false, defaultCt, defaultCt, 0, []⟩

/-- The contract's emitted events. -/
inductive Event where
  | proposalCreated (proposalId : Nat) (title : String) (startTime endTime : Nat)
  | voteSubmitted (voter proposalId : Nat)
  | resultsRevealed (proposalId yesVotes noVotes : Nat)
  | proposalEnded (proposalId : Nat)
deriving DecidableEq, Repr

/-- The full contract state (storage plus the ghost oracle log, the ghost
handle counter and the event log). -/
structure State where
  admin : Nat
  currentProposalId : Nat
  proposals : Nat → Proposal
  votes : Nat → Nat → Vote
  nextHandle : Nat
  nextRequestId : Nat
  requests : List (Nat × Nat)
  events : List Event

/-- State right after the constructor ran, deployed by `deployer`. -/
def initState (deployer : Nat) : State :=
  { admin := deployer
    currentProposalId := 0
    proposals := fun _ => defaultProposal
    votes := fun _ _ => defaultVote
    nextHandle := 1
    nextRequestId := 0
    requests := []
    events := [] }

/-- `createProposal`: admin-only creation of a fresh proposal with encrypted
zero counters. -/
def createProposal (s : State) (sender t : Nat) (title descr : String)
    (duration : Nat) : Except String State :=
  if sender = s.admin then
    if 0 < title.length then
      if 0 < duration then
        if s.currentProposalId + 1 < U32 then
          let pid := s.currentProposalId + 1
          let initialYesVotes := fheAsEuint32 s.nextHandle 0
          let initialNoVotes := fheAsEuint32 (s.nextHandle + 1) 0
          let p : Proposal :=
            { title := title
              description := descr
              startTime := t
              endTime := t + duration
              active := true
              resultsRevealed := false
              yesVotes := initialYesVotes
              noVotes := initialNoVotes
              totalVoters := 0
              voters := [] }
          .ok { s with
                currentProposalId := pid
                proposals := fun q => if q = pid then p else s.proposals q
                nextHandle := s.nextHandle + 2
                events := s.events ++ [.proposalCreated pid title t (t + duration)] }
        else .error "panic: arithmetic overflow"
      else .error "Voting duration must be positive"
    else .error "Title cannot be empty"
  else .error "Only admin can perform this action"

/-- `submitVote`: record a (plaintext!) 0/1 vote, encrypt it on-chain, and
fold it into the matching encrypted counter. -/
def submitVote (s : State) (sender t pid vote : Nat) : Except String State :=
  if 0 < pid ∧ pid ≤ s.currentProposalId then
    if (s.proposals pid).active = true then
      if (s.proposals pid).startTime ≤ t then
        if t ≤ (s.proposals pid).endTime then
          if vote = 0 ∨ vote = 1 then
            if (s.votes pid sender).hasVoted = false then
              if (s.proposals pid).totalVoters + 1 < U32 then
                let p := s.proposals pid
                let encryptedVote := fheAsEuint8 s.nextHandle vote
                let one := fheAsEuint32 (s.nextHandle + 1) 1
                let p' : Proposal :=
                  if vote = 1 then
                    { p with
                      voters := p.voters ++ [sender]
                      totalVoters := p.totalVoters + 1
                      yesVotes := fheAdd32 (s.nextHandle + 2) p.yesVotes one }
                  else
                    { p with
                      voters := p.voters ++ [sender]
                      totalVoters := p.totalVoters + 1
                      noVotes := fheAdd32 (s.nextHandle + 2) p.noVotes one }
                .ok { s with
                      proposals := fun q => if q = pid then p' else s.proposals q
                      votes := fun q a =>
                        if q = pid ∧ a = sender then ⟨encryptedVote, true, t⟩
                        else s.votes q a
                      nextHandle := s.nextHandle + 3
                      events := s.events ++ [.voteSubmitted sender pid] }
              else .error "panic: arithmetic overflow"
            else .error "Already voted on this proposal"
          else .error "Vote must be 0 (no) or 1 (yes)"
        else .error "Voting has ended"
      else .error "Voting has not started"
    else .error "Proposal is not active"
  else .error "Proposal does not exist"

/-- `revealResults`: after the deadline the admin asks the oracle to decrypt
the two counters.  The contract records nothing; only the ghost oracle log
remembers which proposal the request was issued for. -/
def revealResults (s : State) (sender t pid : Nat) : Except String State :=
  if 0 < pid ∧ pid ≤ s.currentProposalId then
    if (s.proposals pid).endTime < t then
      if sender = s.admin then
        if (s.proposals pid).resultsRevealed = false then
          .ok { s with
                requests := s.requests ++ [(s.nextRequestId, pid)]
                nextRequestId := s.nextRequestId + 1 }
        else .error "Results already revealed"
      else .error "Only admin can perform this action"
    else .error "Voting is still active"
  else .error "Proposal does not exist"

/-- `processResults`: the oracle callback.  After signature verification the
decoded cleartexts are accepted unconditionally and the proposal looked up is
always the one with the current highest id. -/
def processResults (s : State) (sender requestId yes no : Nat) (sigOk : Bool) :
    Except String State :=
  if sigOk = true then
    let pid := s.currentProposalId
    let p := s.proposals pid
    .ok { s with
          proposals := fun q =>
            if q = pid then { p with resultsRevealed := true, active := false }
            else s.proposals q
          events := s.events ++ [.resultsRevealed pid yes no, .proposalEnded pid] }
  else .error "KMS signature verification failed"

/-- `endProposal`: admin-only early deactivation of a still-active proposal. -/
def endProposal (s : State) (sender pid : Nat) : Except String State :=
  if 0 < pid ∧ pid ≤ s.currentProposalId then
    if sender = s.admin then
      if (s.proposals pid).active = true then
        .ok { s with
              proposals := fun q =>
                if q = pid then { s.proposals pid with active := false }
                else s.proposals q
              events := s.events ++ [.proposalEnded pid] }
      else .error "Proposal already ended"
    else .error "Only admin can perform this action"
  else .error "Proposal does not exist"

/-- `transferAdmin`: hand the admin role to a non-zero address. -/
def transferAdmin (s : State) (sender newAdmin : Nat) : Except String State :=
  if sender = s.admin then
    if newAdmin ≠ 0 then .ok { s with admin := newAdmin }
    else .error "New admin cannot be zero address"
  else .error "Only admin can perform this action"

/-- `getProposalInfo`: the read-only proposal query; returns title,
description, start/end time, the two lifecycle flags and `totalVoters`. -/
def getProposalInfo (s : State) (pid : Nat) :
    Except String (String × String × Nat × Nat × Bool × Bool × Nat) :=
  if 0 < pid ∧ pid ≤ s.currentProposalId then
    let p := s.proposals pid
    .ok (p.title, p.description, p.startTime, p.endTime, p.active,
         p.resultsRevealed, p.totalVoters)
  else .error "Proposal does not exist"

/-- `hasUserVoted`: read-only double-vote flag query. -/
def hasUserVoted (s : State) (pid user : Nat) : Except String Bool :=
  if 0 < pid ∧ pid ≤ s.currentProposalId then .ok (s.votes pid user).hasVoted
  else .error "Proposal does not exist"

/-- One state-mutating transaction against the contract. -/
inductive Op where
  | createProposal (sender t : Nat) (title descr : String) (duration : Nat)
  | submitVote (sender t pid vote : Nat)
  | revealResults (sender t pid : Nat)
  | processResults (sender requestId yes no : Nat) (sigOk : Bool)
  | endProposal (sender pid : Nat)
  | transferAdmin (sender newAdmin : Nat)

/-- Run one transaction: either the post-state or the revert string. -/
def runOp (s : State) : Op → Except String State
  | .createProposal sender t title descr duration =>
      createProposal s sender t title descr duration
  | .submitVote sender t pid vote => submitVote s sender t pid vote
  | .revealResults sender t pid => revealResults s sender t pid
  | .processResults sender requestId yes no sigOk =>
      processResults s sender requestId yes no sigOk
  | .endProposal sender pid => endProposal s sender pid
  | .transferAdmin sender newAdmin => transferAdmin s sender newAdmin

/-- Post-state of one transaction; a reverted transaction changes nothing. -/
def execOp (s : State) (op : Op) : State :=
  match runOp s op with
  | .ok s' => s'
  | .error _ => s

/-- Post-state of a transaction sequence. -/
def execOps (s : State) (ops : List Op) : State := ops.foldl execOp s

/-- States reachable from a fresh deployment by any transaction sequence. -/
inductive Reachable : State → Prop where
  | deployed (deployer : Nat) : Reachable (initState deployer)
  | step (s : State) (op : Op) : Reachable s → Reachable (execOp s op)

/-- Claim C1.  Concrete run showing the callback is routed to the wrong
proposal: the admin creates proposal 1, requests its reveal (the oracle log
records request 0 as issued for proposal 1), then creates proposal 2; when
the callback for request 0 arrives, the handler marks proposal 2 revealed
and leaves proposal 1 untouched, because it resolves the callback to
`currentProposalId` instead of a stored request-to-proposal mapping. -/
theorem c1_callback_routed_to_latest_proposal :
    (execOps (initState 0)
      [.createProposal 0 0 "A" "D" 10, .revealResults 0 11 1,
       .createProposal 0 12 "B" "D" 10,
       .processResults 7 0 0 0 true]).requests = [(0, 1)]
  ∧ ((execOps (initState 0)
      [.createProposal 0 0 "A" "D" 10, .revealResults 0 11 1,
       .createProposal 0 12 "B" "D" 10,
       .processResults 7 0 0 0 true]).proposals 1).resultsRevealed = false
  ∧ ((execOps (initState 0)
      [.createProposal 0 0 "A" "D" 10, .revealResults 0 11 1,
       .createProposal 0 12 "B" "D" 10,
       .processResults 7 0 0 0 true]).proposals 2).resultsRevealed = true := by
  decide

/-- Claim C2, counterexample.  Three voters vote yes on proposal 1
(`totalVoters = 3`); an authenticated callback then delivers
`yesVotes = 3, noVotes = 1`, whose sum `4` disagrees with `totalVoters = 3`;
contrary to the claim the handler still marks the proposal revealed: no
cross-check is performed. -/
theorem c2_counterexample_mismatch_accepted :
    ((execOps (initState 0)
      [.createProposal 0 0 "A" "D" 10, .submitVote 1 3 1 1, .submitVote 2 3 1 1,
       .submitVote 3 3 1 1, .revealResults 0 11 1]).proposals 1).totalVoters = 3
  ∧ 3 + 1 ≠ 3
  ∧ ((execOps (initState 0)
      [.createProposal 0 0 "A" "D" 10, .submitVote 1 3 1 1, .submitVote 2 3 1 1,
       .submitVote 3 3 1 1, .revealResults 0 11 1,
       .processResults 7 0 3 1 true]).proposals 1).resultsRevealed = true := by
  decide

/-- Claim C2 as amended.  The callback performs no cross-check of the decoded
values against `totalVoters`: whenever signature verification passes it
succeeds and marks the current highest proposal revealed, even when
`yes + no` disagrees with that proposal's `totalVoters`. -/
theorem c2_no_crosscheck_on_callback (s : State) (sender requestId yes no : Nat)
    (hmis : yes + no ≠ (s.proposals s.currentProposalId).totalVoters) :
    (runOp s (.processResults sender requestId yes no true)).isOk = true
  ∧ ((execOp s (.processResults sender requestId yes no true)).proposals
      s.currentProposalId).resultsRevealed = true := by
  refine ⟨rfl, ?_⟩
  simp [execOp, runOp, processResults]

/-- Claim C2 as amended, witness at a concrete mismatching input. -/
theorem c2_no_crosscheck_witness :
    (runOp (initState 0) (.processResults 7 0 1 0 true)).isOk = true
  ∧ ((execOp (initState 0) (.processResults 7 0 1 0 true)).proposals
      (initState 0).currentProposalId).resultsRevealed = true :=
  c2_no_crosscheck_on_callback (initState 0) 7 0 1 0 (by decide)

/-- Claim C3, counterexample.  Two submissions from the same pre-state that
differ only in the vote's value leave observably different storage outside
the ciphertext plaintexts: voting `1` overwrites the `yesVotes` storage
handle while voting `0` leaves it in place (and symmetrically for
`noVotes`), so the publicly visible handles reveal which way the vote went
(on top of the vote itself being a plaintext calldata argument). -/
theorem c3_counterexample_vote_value_observable :
    ((execOps (initState 0)
      [.createProposal 0 0 "A" "D" 10, .submitVote 5 3 1 1]).proposals 1).yesVotes.handle
  ≠ ((execOps (initState 0)
      [.createProposal 0 0 "A" "D" 10, .submitVote 5 3 1 0]).proposals 1).yesVotes.handle := by
  decide

/-- Claim C4, counterexample.  After the deadline the admin calls
`revealResults` twice on proposal 1 with no callback in between; contrary to
the claim the second call also succeeds, and the oracle log now holds two
outstanding decryption requests for the same proposal. -/
theorem c4_counterexample_second_reveal_succeeds :
    (runOp (execOps (initState 0)
        [.createProposal 0 0 "A" "D" 10, .revealResults 0 11 1])
      (.revealResults 0 12 1)).isOk = true
  ∧ (execOps (initState 0)
      [.createProposal 0 0 "A" "D" 10, .revealResults 0 11 1,
       .revealResults 0 12 1]).requests = [(0, 1), (1, 1)] := by
  decide

/-- Claim C5, counterexample.  Two callbacks that decode to different
tallies (`(3,1)` versus `(2,2)`) leave byte-for-byte identical proposal
records and identical `getProposalInfo` answers: the decoded `finalYes` and
`finalNo` are not snapshotted anywhere and cannot be read back through the
query; they only appear in the emitted event. -/
theorem c5_counterexample_results_not_queryable :
    (execOps (initState 0)
      [.createProposal 0 0 "A" "D" 10, .submitVote 1 3 1 1, .submitVote 2 3 1 0,
       .revealResults 0 11 1, .processResults 7 0 3 1 true]).proposals 1
  = (execOps (initState 0)
      [.createProposal 0 0 "A" "D" 10, .submitVote 1 3 1 1, .submitVote 2 3 1 0,
       .revealResults 0 11 1, .processResults 7 0 2 2 true]).proposals 1
  ∧ getProposalInfo (execOps (initState 0)
      [.createProposal 0 0 "A" "D" 10, .submitVote 1 3 1 1, .submitVote 2 3 1 0,
       .revealResults 0 11 1, .processResults 7 0 3 1 true]) 1
  = getProposalInfo (execOps (initState 0)
      [.createProposal 0 0 "A" "D" 10, .submitVote 1 3 1 1, .submitVote 2 3 1 0,
       .revealResults 0 11 1, .processResults 7 0 2 2 true]) 1
  ∧ ((execOps (initState 0)
      [.createProposal 0 0 "A" "D" 10, .submitVote 1 3 1 1, .submitVote 2 3 1 0,
       .revealResults 0 11 1, .processResults 7 0 3 1 true]).proposals 1).resultsRevealed
      = true := by
  refine ⟨by decide, rfl, by decide⟩

/-- Claim C5 as amended.  A verified callback only flips the two lifecycle
booleans of the current highest proposal and emits the decoded values in the
`ResultsRevealed` event; nothing else of the proposal record changes (so no
`finalYes`/`finalNo` is snapshotted — the struct has no such fields), and
the read-only query's answer is independent of the decoded values. -/
theorem c5_callback_does_not_snapshot (s : State)
    (sender requestId yes no yes2 no2 : Nat) :
    (execOp s (.processResults sender requestId yes no true)).proposals
      s.currentProposalId
      = { s.proposals s.currentProposalId with resultsRevealed := true, active := false }
  ∧ (execOp s (.processResults sender requestId yes no true)).events
      = s.events ++ [.resultsRevealed s.currentProposalId yes no,
                     .proposalEnded s.currentProposalId]
  ∧ ∀ pid, getProposalInfo (execOp s (.processResults sender requestId yes no true)) pid
      = getProposalInfo (execOp s (.processResults sender requestId yes2 no2 true)) pid := by
  refine ⟨?_, rfl, fun pid => rfl⟩
  simp [execOp, runOp, processResults]

/-- Claim C10.  The callback enforces nothing about its caller (any two
senders produce identical outcomes), and whenever signature verification
passes it succeeds and sets `resultsRevealed := true` and `active := false`
on the proposal with the current highest id, for every state whatsoever —
regardless of that proposal's lifecycle flags or voting window. -/
theorem c10_processResults_unconditional (s : State)
    (sender sender2 requestId yes no : Nat) :
    execOp s (.processResults sender requestId yes no true)
      = execOp s (.processResults sender2 requestId yes no true)
  ∧ (runOp s (.processResults sender requestId yes no true)).isOk = true
  ∧ ((execOp s (.processResults sender requestId yes no true)).proposals
      s.currentProposalId).resultsRevealed = true
  ∧ ((execOp s (.processResults sender requestId yes no true)).proposals
      s.currentProposalId).active = false := by
  refine ⟨rfl, rfl, ?_, ?_⟩ <;> simp [execOp, runOp, processResults]

/-- Claim C3 as amended.  `submitVote` receives the vote in plaintext and
branches on it: from the same pre-state, voting `1` replaces the `yesVotes`
ciphertext (storing a fresh handle there, `noVotes` untouched) while voting
`0` replaces the `noVotes` ciphertext (`yesVotes` untouched), so the
observable storage update depends on the vote's value and individual votes
are not secret at the contract interface. -/
theorem c3_branch_depends_on_plaintext_vote (s : State) (sender t pid : Nat)
    (hex : 0 < pid ∧ pid ≤ s.currentProposalId)
    (hact : (s.proposals pid).active = true)
    (hst : (s.proposals pid).startTime ≤ t)
    (het : t ≤ (s.proposals pid).endTime)
    (hnv : (s.votes pid sender).hasVoted = false)
    (hov : (s.proposals pid).totalVoters + 1 < U32) :
    ((execOp s (.submitVote sender t pid 1)).proposals pid).noVotes
      = (s.proposals pid).noVotes
  ∧ ((execOp s (.submitVote sender t pid 1)).proposals pid).yesVotes.handle
      = s.nextHandle + 2
  ∧ ((execOp s (.submitVote sender t pid 0)).proposals pid).yesVotes
      = (s.proposals pid).yesVotes
  ∧ ((execOp s (.submitVote sender t pid 0)).proposals pid).noVotes.handle
      = s.nextHandle + 2 := by
  refine ⟨?_, ?_, ?_, ?_⟩ <;>
    simp [execOp, runOp, submitVote, fheAdd32, fheAsEuint32, fheAsEuint8,
          hex.1, hex.2, hact, hst, het, hnv, hov]

/-- Claim C3 as amended, witness on a freshly created proposal. -/
theorem c3_branch_witness :
    ((execOp (execOp (initState 0) (.createProposal 0 0 "A" "D" 10))
        (.submitVote 5 3 1 1)).proposals 1).noVotes
      = ((execOp (initState 0) (.createProposal 0 0 "A" "D" 10)).proposals 1).noVotes
  ∧ ((execOp (execOp (initState 0) (.createProposal 0 0 "A" "D" 10))
        (.submitVote 5 3 1 1)).proposals 1).yesVotes.handle
      = (execOp (initState 0) (.createProposal 0 0 "A" "D" 10)).nextHandle + 2
  ∧ ((execOp (execOp (initState 0) (.createProposal 0 0 "A" "D" 10))
        (.submitVote 5 3 1 0)).proposals 1).yesVotes
      = ((execOp (initState 0) (.createProposal 0 0 "A" "D" 10)).proposals 1).yesVotes
  ∧ ((execOp (execOp (initState 0) (.createProposal 0 0 "A" "D" 10))
        (.submitVote 5 3 1 0)).proposals 1).noVotes.handle
      = (execOp (initState 0) (.createProposal 0 0 "A" "D" 10)).nextHandle + 2 :=
  c3_branch_depends_on_plaintext_vote
    (execOp (initState 0) (.createProposal 0 0 "A" "D" 10)) 5 3 1
    (by decide) (by decide) (by decide) (by decide) (by decide) (by decide)

/-- Claim C4 as amended.  `revealResults` is accepted whenever the proposal
exists, its voting deadline has passed, the caller is the admin and results
are not yet revealed; since the call records nothing on the contract and
flips no flag, an immediate second call under the same conditions also
succeeds, leaving two outstanding decryption requests for the same proposal
in the oracle log.  (`revealResults` only starts failing once a callback has
set `resultsRevealed`.) -/
theorem c4_reveal_repeatable_until_callback (s : State) (sender t1 t2 pid : Nat)
    (hex : 0 < pid ∧ pid ≤ s.currentProposalId)
    (ht1 : (s.proposals pid).endTime < t1)
    (ht2 : (s.proposals pid).endTime < t2)
    (hadm : sender = s.admin)
    (hnr : (s.proposals pid).resultsRevealed = false) :
    (runOp s (.revealResults sender t1 pid)).isOk = true
  ∧ (runOp (execOp s (.revealResults sender t1 pid))
      (.revealResults sender t2 pid)).isOk = true
  ∧ (execOp (execOp s (.revealResults sender t1 pid))
      (.revealResults sender t2 pid)).requests
      = s.requests ++ [(s.nextRequestId, pid), (s.nextRequestId + 1, pid)] := by
  refine ⟨?_, ?_, ?_⟩ <;>
    simp [execOp, runOp, revealResults, Except.isOk, Except.toBool, hex.1, hex.2, ht1, ht2, hadm, hnr]

/-- Claim C4 as amended, witness: two reveals in a row on proposal 1. -/
theorem c4_reveal_witness :
    (runOp (execOp (initState 0) (.createProposal 0 0 "A" "D" 10))
      (.revealResults 0 11 1)).isOk = true
  ∧ (runOp (execOp (execOp (initState 0) (.createProposal 0 0 "A" "D" 10))
      (.revealResults 0 11 1)) (.revealResults 0 12 1)).isOk = true
  ∧ (execOp (execOp (execOp (initState 0) (.createProposal 0 0 "A" "D" 10))
      (.revealResults 0 11 1)) (.revealResults 0 12 1)).requests
      = (execOp (initState 0) (.createProposal 0 0 "A" "D" 10)).requests
        ++ [((execOp (initState 0) (.createProposal 0 0 "A" "D" 10)).nextRequestId, 1),
            ((execOp (initState 0) (.createProposal 0 0 "A" "D" 10)).nextRequestId + 1, 1)] :=
  c4_reveal_repeatable_until_callback
    (execOp (initState 0) (.createProposal 0 0 "A" "D" 10)) 0 11 12 1
    (by decide) (by decide) (by decide) (by decide) (by decide)

/-- Claim C8.  A first accepted vote flips the voter's `hasVoted` flag; a
second submission by the same identity on the same proposal (with any valid
0/1 vote value, at any time still inside the window) reverts with the
`Already voted on this proposal` error and leaves the state — `totalVoters`,
both tallies and every vote record — exactly as after the first vote. -/
theorem c8_second_vote_rejected (s : State) (sender t1 t2 pid v1 v2 : Nat)
    (hex : 0 < pid ∧ pid ≤ s.currentProposalId)
    (hact : (s.proposals pid).active = true)
    (hw1a : (s.proposals pid).startTime ≤ t1)
    (hw1b : t1 ≤ (s.proposals pid).endTime)
    (hv1 : v1 = 0 ∨ v1 = 1)
    (hnv : (s.votes pid sender).hasVoted = false)
    (hov : (s.proposals pid).totalVoters + 1 < U32)
    (hw2a : (s.proposals pid).startTime ≤ t2)
    (hw2b : t2 ≤ (s.proposals pid).endTime)
    (hv2 : v2 = 0 ∨ v2 = 1) :
    (runOp s (.submitVote sender t1 pid v1)).isOk = true
  ∧ runOp (execOp s (.submitVote sender t1 pid v1)) (.submitVote sender t2 pid v2)
      = .error "Already voted on this proposal"
  ∧ execOp (execOp s (.submitVote sender t1 pid v1)) (.submitVote sender t2 pid v2)
      = execOp s (.submitVote sender t1 pid v1) := by
  rcases hv1 with rfl | rfl <;> rcases hv2 with rfl | rfl <;>
    refine ⟨?_, ?_, ?_⟩ <;>
    simp [execOp, runOp, submitVote, Except.isOk, Except.toBool, hex.1, hex.2, hact, hw1a, hw1b,
          hw2a, hw2b, hnv, hov]

/-- Claim C8, witness: voter 5 votes yes, then tries to vote no. -/
theorem c8_witness :
    (runOp (execOp (initState 0) (.createProposal 0 0 "A" "D" 10))
      (.submitVote 5 3 1 1)).isOk = true
  ∧ runOp (execOp (execOp (initState 0) (.createProposal 0 0 "A" "D" 10))
      (.submitVote 5 3 1 1)) (.submitVote 5 4 1 0)
      = .error "Already voted on this proposal"
  ∧ execOp (execOp (execOp (initState 0) (.createProposal 0 0 "A" "D" 10))
      (.submitVote 5 3 1 1)) (.submitVote 5 4 1 0)
      = execOp (execOp (initState 0) (.createProposal 0 0 "A" "D" 10))
          (.submitVote 5 3 1 1) :=
  c8_second_vote_rejected
    (execOp (initState 0) (.createProposal 0 0 "A" "D" 10)) 5 3 4 1 1 0
    (by decide) (by decide) (by decide) (by decide) (by decide) (by decide)
    (by decide) (by decide) (by decide) (by decide)

/-- Claim C9.  On an existing proposal, `endProposal` called by a non-admin
reverts with the admin-only error and changes nothing; called by the admin
on an inactive proposal it reverts; and it succeeds exactly when the caller
is the admin and the proposal is currently active. -/
theorem c9_endProposal_admin_and_active_only (s : State) (sender pid : Nat)
    (hex : 0 < pid ∧ pid ≤ s.currentProposalId) :
    (sender ≠ s.admin →
      runOp s (.endProposal sender pid) = .error "Only admin can perform this action"
      ∧ execOp s (.endProposal sender pid) = s)
  ∧ (sender = s.admin → (s.proposals pid).active = false →
      runOp s (.endProposal sender pid) = .error "Proposal already ended"
      ∧ execOp s (.endProposal sender pid) = s)
  ∧ ((runOp s (.endProposal sender pid)).isOk = true
      ↔ sender = s.admin ∧ (s.proposals pid).active = true) := by
  refine ⟨fun hna => ?_, fun hadm hina => ?_, ?_⟩
  · constructor <;> simp [execOp, runOp, endProposal, hex.1, hex.2, hna]
  · constructor <;> simp [execOp, runOp, endProposal, hex.1, hex.2, hadm, hina]
  · by_cases hadm : sender = s.admin
    · by_cases hact : (s.proposals pid).active = true <;>
        simp [runOp, endProposal, Except.isOk, Except.toBool, hex.1, hex.2, hadm, hact]
    · simp [runOp, endProposal, Except.isOk, Except.toBool, hex.1, hex.2, hadm]

/-- Claim C9, witness on a fresh active proposal with non-admin caller 5. -/
theorem c9_witness :
    ((5 : Nat) ≠ (execOp (initState 0) (.createProposal 0 0 "A" "D" 10)).admin →
      runOp (execOp (initState 0) (.createProposal 0 0 "A" "D" 10)) (.endProposal 5 1)
        = .error "Only admin can perform this action"
      ∧ execOp (execOp (initState 0) (.createProposal 0 0 "A" "D" 10)) (.endProposal 5 1)
        = execOp (initState 0) (.createProposal 0 0 "A" "D" 10))
  ∧ ((5 : Nat) = (execOp (initState 0) (.createProposal 0 0 "A" "D" 10)).admin →
      ((execOp (initState 0) (.createProposal 0 0 "A" "D" 10)).proposals 1).active = false →
      runOp (execOp (initState 0) (.createProposal 0 0 "A" "D" 10)) (.endProposal 5 1)
        = .error "Proposal already ended"
      ∧ execOp (execOp (initState 0) (.createProposal 0 0 "A" "D" 10)) (.endProposal 5 1)
        = execOp (initState 0) (.createProposal 0 0 "A" "D" 10))
  ∧ ((runOp (execOp (initState 0) (.createProposal 0 0 "A" "D" 10)) (.endProposal 5 1)).isOk = true
      ↔ (5 : Nat) = (execOp (initState 0) (.createProposal 0 0 "A" "D" 10)).admin
        ∧ ((execOp (initState 0) (.createProposal 0 0 "A" "D" 10)).proposals 1).active = true) :=
  c9_endProposal_admin_and_active_only
    (execOp (initState 0) (.createProposal 0 0 "A" "D" 10)) 5 1 (by decide)

/-- Bookkeeping invariant of one proposal record `p` together with its slice
`vm` of the votes mapping: the voters list is duplicate-free, it lists
exactly the identities whose vote record says `hasVoted`, its length is
`totalVoters`, the plaintexts under the two encrypted counters add up to
`totalVoters`, and `totalVoters` fits in a `uint32`. -/
def PropInv (p : Proposal) (vm : Nat → Vote) : Prop :=
  p.voters.Nodup
  ∧ (∀ a, a ∈ p.voters ↔ (vm a).hasVoted = true)
  ∧ p.voters.length = p.totalVoters
  ∧ p.yesVotes.val + p.noVotes.val = p.totalVoters
  ∧ p.totalVoters < U32

/-- Global invariant: every proposal satisfies `PropInv`, and every proposal
id above `currentProposalId` is still completely untouched storage. -/
def Inv (s : State) : Prop :=
  (∀ pid, PropInv (s.proposals pid) (s.votes pid))
  ∧ ∀ pid, s.currentProposalId < pid →
      s.proposals pid = defaultProposal ∧ ∀ a, s.votes pid a = defaultVote

lemma inv_initState (deployer : Nat) : Inv (initState deployer) := by
  constructor
  · intro pid
    refine ⟨List.nodup_nil, fun a => ?_, rfl, rfl, ?_⟩
    · simp [initState, defaultProposal, defaultVote]
    · show (0 : Nat) < U32
      decide
  · intro pid _
    exact ⟨rfl, fun a => rfl⟩

lemma inv_execOp_of_ok (s : State) (op : Op) (h : Inv s)
    (hok : ∀ s', runOp s op = .ok s' → Inv s') : Inv (execOp s op) := by
  unfold execOp
  cases hr : runOp s op with
  | ok s' => exact hok s' hr
  | error e => exact h

lemma inv_createProposal_ok (s : State) (sender t : Nat) (title descr : String)
    (duration : Nat) (h : Inv s) (s' : State)
    (hr : createProposal s sender t title descr duration = .ok s') : Inv s' := by
  unfold createProposal at hr
  split_ifs at hr with h1 h2 h3 h4
  cases hr
  refine ⟨fun q => ?_, fun q hql => ?_⟩
  · by_cases hq : q = s.currentProposalId + 1
    · subst hq
      have hfresh := h.2 (s.currentProposalId + 1) (Nat.lt_succ_self _)
      refine ⟨?_, fun a => ?_, ?_, ?_, ?_⟩
      · simp
      · simp [hfresh.2 a, defaultVote]
      · simp
      · simp [fheAsEuint32]
      · simp only [PropInv]
        show (0 : Nat) < U32
        decide
    · obtain ⟨nd, mem, len, tal, lt⟩ := h.1 q
      exact ⟨by simpa [hq] using nd, fun a => by simpa [hq] using mem a,
             by simpa [hq] using len, by simpa [hq] using tal,
             by simpa [hq] using lt⟩
  · have hql' : s.currentProposalId + 1 < q := hql
    have hq : q ≠ s.currentProposalId + 1 := by omega
    have hfr := h.2 q (by omega)
    exact ⟨by simpa [hq] using hfr.1, fun a => hfr.2 a⟩

lemma inv_submitVote_ok (s : State) (sender t pid vote : Nat) (h : Inv s)
    (s' : State) (hr : submitVote s sender t pid vote = .ok s') : Inv s' := by
  unfold submitVote at hr
  split_ifs at hr with h1 h2 h3 h4 h5 h6 h7 h8
  all_goals cases hr
  all_goals obtain ⟨nd, mem, len, tal, lt⟩ := h.1 pid
  all_goals
    have hs : sender ∉ (s.proposals pid).voters := by
      intro hmem
      rw [mem sender, h6] at hmem
      exact Bool.noConfusion hmem
  all_goals
    have h1m : (1 : Nat) % U32 = 1 := by decide
  all_goals refine ⟨fun q => ?_, fun q hql => ?_⟩
  ·
    by_cases hq : q = pid
    · subst hq
      refine ⟨?_, fun a => ?_, ?_, ?_, ?_⟩
      · simp [List.nodup_append, nd, hs]
      · by_cases ha : a = sender
        · subst ha; simp
        · simp [ha, mem a]
      · simp [len]
      · have hy : (s.proposals q).yesVotes.val + 1 < U32 := by omega
        simp only [fheAdd32, fheAsEuint32, h1m]
        simp [Nat.mod_eq_of_lt hy]
        omega
      · simpa using h7
    · obtain ⟨nd', mem', len', tal', lt'⟩ := h.1 q
      refine ⟨by simpa [hq] using nd', fun a => ?_, by simpa [hq] using len',
              by simpa [hq] using tal', by simpa [hq] using lt'⟩
      simpa [hq] using mem' a
  ·
    have hql' : s.currentProposalId < q := hql
    have hq : q ≠ pid := by omega
    have hfr := h.2 q hql'
    exact ⟨by simpa [hq] using hfr.1, fun a => by simpa [hq] using hfr.2 a⟩
  ·
    by_cases hq : q = pid
    · subst hq
      refine ⟨?_, fun a => ?_, ?_, ?_, ?_⟩
      · simp [List.nodup_append, nd, hs]
      · by_cases ha : a = sender
        · subst ha; simp
        · simp [ha, mem a]
      · simp [len]
      · have hn : (s.proposals q).noVotes.val + 1 < U32 := by omega
        simp only [fheAdd32, fheAsEuint32, h1m]
        simp [Nat.mod_eq_of_lt hn]
        omega
      · simpa using h7
    · obtain ⟨nd', mem', len', tal', lt'⟩ := h.1 q
      refine ⟨by simpa [hq] using nd', fun a => ?_, by simpa [hq] using len',
              by simpa [hq] using tal', by simpa [hq] using lt'⟩
      simpa [hq] using mem' a
  ·
    have hql' : s.currentProposalId < q := hql
    have hq : q ≠ pid := by omega
    have hfr := h.2 q hql'
    exact ⟨by simpa [hq] using hfr.1, fun a => by simpa [hq] using hfr.2 a⟩

lemma inv_revealResults_ok (s : State) (sender t pid : Nat) (h : Inv s)
    (s' : State) (hr : revealResults s sender t pid = .ok s') : Inv s' := by
  unfold revealResults at hr
  split_ifs at hr
  all_goals cases hr
  exact h

lemma inv_processResults_ok (s : State) (sender requestId yes no : Nat)
    (sigOk : Bool) (h : Inv s) (s' : State)
    (hr : processResults s sender requestId yes no sigOk = .ok s') : Inv s' := by
  unfold processResults at hr
  split_ifs at hr
  all_goals cases hr
  refine ⟨fun q => ?_, fun q hql => ?_⟩
  · by_cases hq : q = s.currentProposalId
    · subst hq
      obtain ⟨nd, mem, len, tal, lt⟩ := h.1 s.currentProposalId
      exact ⟨by simpa using nd, fun a => by simpa using mem a,
             by simpa using len, by simpa using tal, by simpa using lt⟩
    · obtain ⟨nd, mem, len, tal, lt⟩ := h.1 q
      exact ⟨by simpa [hq] using nd, fun a => by simpa [hq] using mem a,
             by simpa [hq] using len, by simpa [hq] using tal,
             by simpa [hq] using lt⟩
  · have hql' : s.currentProposalId < q := hql
    have hq : q ≠ s.currentProposalId := by omega
    have hfr := h.2 q hql'
    exact ⟨by simpa [hq] using hfr.1, fun a => by simpa [hq] using hfr.2 a⟩

lemma inv_endProposal_ok (s : State) (sender pid : Nat) (h : Inv s)
    (s' : State) (hr : endProposal s sender pid = .ok s') : Inv s' := by
  unfold endProposal at hr
  split_ifs at hr with h1 h2 h3
  all_goals cases hr
  refine ⟨fun q => ?_, fun q hql => ?_⟩
  · by_cases hq : q = pid
    · subst hq
      obtain ⟨nd, mem, len, tal, lt⟩ := h.1 q
      exact ⟨by simpa using nd, fun a => by simpa using mem a,
             by simpa using len, by simpa using tal, by simpa using lt⟩
    · obtain ⟨nd, mem, len, tal, lt⟩ := h.1 q
      exact ⟨by simpa [hq] using nd, fun a => by simpa [hq] using mem a,
             by simpa [hq] using len, by simpa [hq] using tal,
             by simpa [hq] using lt⟩
  · have hql' : s.currentProposalId < q := hql
    have hq : q ≠ pid := by omega
    have hfr := h.2 q hql'
    exact ⟨by simpa [hq] using hfr.1, fun a => by simpa [hq] using hfr.2 a⟩

lemma inv_transferAdmin_ok (s : State) (sender newAdmin : Nat) (h : Inv s)
    (s' : State) (hr : transferAdmin s sender newAdmin = .ok s') : Inv s' := by
  unfold transferAdmin at hr
  split_ifs at hr
  all_goals cases hr
  exact h

/-- Every transaction preserves the global invariant. -/
lemma inv_execOp (s : State) (op : Op) (h : Inv s) : Inv (execOp s op) := by
  refine inv_execOp_of_ok s op h (fun s' hr => ?_)
  cases op with
  | createProposal sender t title descr duration =>
      exact inv_createProposal_ok s sender t title descr duration h s' hr
  | submitVote sender t pid vote => exact inv_submitVote_ok s sender t pid vote h s' hr
  | revealResults sender t pid => exact inv_revealResults_ok s sender t pid h s' hr
  | processResults sender requestId yes no sigOk =>
      exact inv_processResults_ok s sender requestId yes no sigOk h s' hr
  | endProposal sender pid => exact inv_endProposal_ok s sender pid h s' hr
  | transferAdmin sender newAdmin => exact inv_transferAdmin_ok s sender newAdmin h s' hr

/-- Every reachable state satisfies the global invariant. -/
lemma inv_of_reachable (s : State) (h : Reachable s) : Inv s := by
  induction h with
  | deployed deployer => exact inv_initState deployer
  | step s op _ ih => exact inv_execOp s op ih

/-- Claim C6.  In every reachable state, for every proposal, `totalVoters`
equals the number of distinct voter identities whose vote record for that
proposal has `hasVoted = true`. -/
theorem c6_totalVoters_counts_voters (s : State) (h : Reachable s) (pid : Nat) :
    Set.ncard {a : Nat | (s.votes pid a).hasVoted = true}
      = (s.proposals pid).totalVoters := by
  obtain ⟨nd, mem, len, tal, lt⟩ := (inv_of_reachable s h).1 pid
  have hset : {a : Nat | (s.votes pid a).hasVoted = true}
      = ↑(s.proposals pid).voters.toFinset := by
    ext a
    simp only [Set.mem_setOf_eq, Finset.coe_sort_coe, Finset.mem_coe,
      List.mem_toFinset]
    exact (mem a).symm
  rw [hset, Set.ncard_coe_Finset, List.toFinset_card_of_nodup nd, len]

/-- Claim C6, witness: after one accepted vote the count is `1 = totalVoters`. -/
theorem c6_witness :
    Set.ncard {a : Nat |
      ((execOp (execOp (initState 0) (.createProposal 0 0 "A" "D" 10))
        (.submitVote 5 3 1 1)).votes 1 a).hasVoted = true}
    = ((execOp (execOp (initState 0) (.createProposal 0 0 "A" "D" 10))
        (.submitVote 5 3 1 1)).proposals 1).totalVoters :=
  c6_totalVoters_counts_voters _
    (Reachable.step _ (.submitVote 5 3 1 1)
      (Reachable.step _ (.createProposal 0 0 "A" "D" 10)
        (Reachable.deployed 0))) 1

/-- Claim C7.  In every reachable state, for every proposal, the plaintexts
under the two encrypted counters add up to `totalVoters`: each accepted vote
adds exactly one across `yesVotes` and `noVotes`. -/
theorem c7_tally_sum_equals_totalVoters (s : State) (h : Reachable s) (pid : Nat) :
    (s.proposals pid).yesVotes.val + (s.proposals pid).noVotes.val
      = (s.proposals pid).totalVoters :=
  ((inv_of_reachable s h).1 pid).2.2.2.1

/-- Claim C7, witness: after a yes vote and a no vote the encrypted counters
decrypt to `1 + 1 = 2 = totalVoters`. -/
theorem c7_witness :
    ((execOp (execOp (execOp (initState 0) (.createProposal 0 0 "A" "D" 10))
        (.submitVote 5 3 1 1)) (.submitVote 6 4 1 0)).proposals 1).yesVotes.val
    + ((execOp (execOp (execOp (initState 0) (.createProposal 0 0 "A" "D" 10))
        (.submitVote 5 3 1 1)) (.submitVote 6 4 1 0)).proposals 1).noVotes.val
    = ((execOp (execOp (execOp (initState 0) (.createProposal 0 0 "A" "D" 10))
        (.submitVote 5 3 1 1)) (.submitVote 6 4 1 0)).proposals 1).totalVoters :=
  c7_tally_sum_equals_totalVoters _
    (Reachable.step _ (.submitVote 6 4 1 0)
      (Reachable.step _ (.submitVote 5 3 1 1)
        (Reachable.step _ (.createProposal 0 0 "A" "D" 10)
          (Reachable.deployed 0)))) 1

end EnvironmentalVoting
